import Mathlib

/-!
Verification of the launch orchestration logic of Movie-Consolidator
(`launcher.py`).  The program's effects (logging, printing, filesystem
mutation, delegate calls, cleanup) are modelled as an event trace; the
filesystem is the set of existing paths; exceptions raised by the external
delegates (`process_videos`, `process_video`, `launch_gradio_interface`)
are oracle parameters of a run.  Python's `SystemExit` (raised by
`sys.exit(1)`) is not a subclass of `Exception`, so the top-level
`except Exception` block does not catch it while the `finally` block still
runs; the model encodes this control flow explicitly.
-/

namespace Launcher

/-- A filesystem: the set of currently existing paths (dirs and files). -/
structure FS where
  paths : List String
deriving Repr, DecidableEq

/-- `os.path.exists`. -/
def FS.pathExists (fs : FS) (p : String) : Bool := decide (p ∈ fs.paths)

/-- `os.makedirs` on a single path, success case: the path now exists. -/
def FS.mkdir (fs : FS) (p : String) : FS := ⟨p :: fs.paths⟩

/-- `os.makedirs p`: Python raises `FileNotFoundError` on the empty path
(which is what `os.path.dirname` returns for a bare filename); `none`
models that exception. -/
def FS.makedirs (fs : FS) (p : String) : Option FS :=
  if p = "" then none else some (fs.mkdir p)

/-- One observable effect of the orchestrator.  `printTier` marks the three
acceleration-tier prints of lines 54/56/58; `printMsg` every other print. -/
inductive Event where
  | loadSettings
  | loadHardwareConfig
  | logEvent (msg : String)
  | printMsg (msg : String)
  | printTier (msg : String)
  | cleanup
  | callProcessVideos (inputDir outputDir : String)
  | callProcessVideo (inputPath outputPath : String)
  | callLaunchInterface
deriving Repr, DecidableEq

/-- The hardware mapping: capability name to flag (a Python dict, so keys
are unique; order is insertion order). -/
abbrev HardwareConfig := List (String × Bool)

/-- How Python prints a bool. -/
def pyBool (b : Bool) : String := if b then "True" else "False"

/-- `os.path.dirname` for POSIX paths: the part before the last slash,
with trailing slashes stripped unless the head is all slashes.  For a bare
filename it returns the empty string. -/
def dirname (p : String) : String :=
  let cs := p.data
  let head := (cs.reverse.dropWhile (fun c => c ≠ '/')).reverse
  if head.isEmpty || head.all (fun c => c = '/') then ⟨head⟩
  else ⟨(head.reverse.dropWhile (fun c => c = '/')).reverse⟩

/-- Lines 26-30: the fixed set of required directories. -/
def requiredDirs : List String := ["data", "input", "output", "work"]

/-- Lines 32-36: the fixed set of required files. -/
def requiredFiles : List String :=
  ["data/temporary.py", "data/persistent.json", "data/hardware.txt"]

/-- Lines 27-30: create each missing required directory, logging each
creation. -/
def createDirs : FS → List String → FS × List Event
  | fs, [] => (fs, [])
  | fs, d :: ds =>
    if fs.pathExists d then createDirs fs ds
    else
      let r := createDirs (fs.mkdir d) ds
      (r.1, Event.logEvent ("Created missing directory: " ++ d) :: r.2)

/-- Lines 38-41: the first required file that does not exist, if any. -/
def firstMissingFile (fs : FS) : Option String :=
  requiredFiles.find? (fun f => !(fs.pathExists f))

/-- The missing required file detected by `validate_environment` on a run
starting from `fs` (after the directory-creation pass). -/
def firstMissing (fs : FS) : Option String :=
  firstMissingFile (createDirs fs requiredDirs).1

/-- Whether `validate_environment` returned normally or called
`sys.exit(1)` (raising `SystemExit`, which `except Exception` cannot
catch). -/
inductive VOutcome where
  | ok
  | exit1
deriving Repr, DecidableEq

/-- Lines 23-45, `validate_environment`: create missing required dirs,
then for the first missing required file log an error, raise
`FileNotFoundError`, catch it in the same method and call `sys.exit(1)`. -/
def validateEnvironment (fs : FS) : FS × List Event × VOutcome :=
  let r := createDirs fs requiredDirs
  match firstMissingFile r.1 with
  | none => (r.1, r.2, VOutcome.ok)
  | some f =>
      (r.1, r.2 ++
        [Event.logEvent ("Error: Required file missing: " ++ f),
         Event.logEvent ("Environment validation failed: Required file missing: " ++ f)],
       VOutcome.exit1)

/-- Lines 53-58: the acceleration-tier selection.  `hardware_config[key]`
is a dict subscript: a missing key raises `KeyError` (modelled as
`Except.error` carrying the missing key); absent flags are NOT defaulted
to false. -/
def accelTier (hw : HardwareConfig) : Except String String :=
  match hw.lookup "OpenCL" with
  | none => Except.error "OpenCL"
  | some g =>
    if g then Except.ok "Using OpenCL for GPU acceleration"
    else
      match hw.lookup "Avx2" with
      | none => Except.error "Avx2"
      | some a =>
        if a then Except.ok "Using AVX2 for CPU acceleration"
        else Except.ok "Using standard CPU processing"

/-- Lines 49-51: the header plus one `key: value` print per mapping entry,
in stored order. -/
def hwDump (hw : HardwareConfig) : List Event :=
  Event.printMsg "\nHardware Configuration:"
    :: hw.map (fun kv => Event.printMsg (kv.1 ++ ": " ++ pyBool kv.2))

/-- Lines 47-58, `print_hardware_info`: dump the mapping, then emit the
tier message; a missing flag key raises `KeyError` after the dump. -/
def printHardwareInfo (hw : HardwareConfig) : List Event × Except String Unit :=
  match accelTier hw with
  | Except.ok m => (hwDump hw ++ [Event.printTier m], Except.ok ())
  | Except.error e => (hwDump hw, Except.error e)

/-- Lines 60-74, `process_directory`: check the input dir exists, create
the output dir if missing, log a start event, call `process_videos`
(raising iff `batchRaises = some msg`); any exception is caught, logged
and followed by `cleanup_work_directory` — never re-raised. -/
def processDirectory (fs : FS) (batchRaises : Option String)
    (inputDir outputDir : String) : FS × List Event :=
  if !(fs.pathExists inputDir) then
    (fs, [Event.logEvent ("Directory processing failed: Input directory not found: " ++ inputDir),
          Event.cleanup])
  else
    match (if fs.pathExists outputDir then some fs else fs.makedirs outputDir) with
    | none =>
        (fs, [Event.logEvent "Directory processing failed: No such file or directory",
              Event.cleanup])
    | some fs1 =>
        match batchRaises with
        | none =>
            (fs1, [Event.logEvent ("Starting batch processing: " ++ inputDir ++ " -> " ++ outputDir),
                   Event.callProcessVideos inputDir outputDir])
        | some m =>
            (fs1, [Event.logEvent ("Starting batch processing: " ++ inputDir ++ " -> " ++ outputDir),
                   Event.callProcessVideos inputDir outputDir,
                   Event.logEvent ("Directory processing failed: " ++ m),
                   Event.cleanup])

/-- Lines 76-91, `process_single_file`: check the input file exists, take
`os.path.dirname` of the output path, create that directory if missing
(`os.makedirs("")` raises when the output path has no directory
component), log a start event, call `process_video`; any exception is
caught, logged and followed by `cleanup_work_directory`. -/
def processSingleFile (fs : FS) (singleRaises : Option String)
    (inputPath outputPath : String) : FS × List Event :=
  if !(fs.pathExists inputPath) then
    (fs, [Event.logEvent ("Single file processing failed: Input file not found: " ++ inputPath),
          Event.cleanup])
  else
    match (if fs.pathExists (dirname outputPath) then some fs
           else fs.makedirs (dirname outputPath)) with
    | none =>
        (fs, [Event.logEvent "Single file processing failed: No such file or directory",
              Event.cleanup])
    | some fs1 =>
        match singleRaises with
        | none =>
            (fs1, [Event.logEvent ("Processing single file: " ++ inputPath ++ " -> " ++ outputPath),
                   Event.callProcessVideo inputPath outputPath])
        | some m =>
            (fs1, [Event.logEvent ("Processing single file: " ++ inputPath ++ " -> " ++ outputPath),
                   Event.callProcessVideo inputPath outputPath,
                   Event.logEvent ("Single file processing failed: " ++ m),
                   Event.cleanup])

/-- The execution modes the dispatch can select. -/
inductive ExecutionMode where
  | interactive
  | batchDirectory (inputDir outputDir : String)
  | singleFile (inputPath outputPath : String)
  | usageHelp
deriving Repr, DecidableEq

/-- Lines 104-128: mode selection from the full `sys.argv` (element 0 is
the program name).  Note the two-argument branch tests only
`len(sys.argv) == 3` — it does not exclude flag tokens. -/
def selectMode (argv : List String) : ExecutionMode :=
  if argv.length > 1 then
    if argv.getD 1 "" = "--gui" then ExecutionMode.interactive
    else if argv.length = 3 then ExecutionMode.batchDirectory (argv.getD 1 "") (argv.getD 2 "")
    else if argv.length = 4 && argv.getD 1 "" = "--file" then
      ExecutionMode.singleFile (argv.getD 2 "") (argv.getD 3 "")
    else ExecutionMode.usageHelp
  else ExecutionMode.interactive

/-- Lines 119-125: the seven usage prints. -/
def usageEvents : List Event :=
  [Event.printMsg "\nUsage:",
   Event.printMsg "  Launch GUI:",
   Event.printMsg "    python launcher.py --gui",
   Event.printMsg "  Process directory:",
   Event.printMsg "    python launcher.py input_dir output_dir",
   Event.printMsg "  Process single file:",
   Event.printMsg "    python launcher.py --file input_path output_path"]

/-- One run's inputs: the initial filesystem, the loaded hardware mapping,
the full `sys.argv`, and whether each external delegate raises (with the
exception's message). -/
structure Env where
  fs : FS
  hw : HardwareConfig
  argv : List String
  batchRaises : Option String
  singleRaises : Option String
  interactiveRaises : Option String

/-- A run's observable outcome: the event trace, the final filesystem and
the process exit code. -/
structure RunResult where
  trace : List Event
  fs : FS
  exitCode : Nat
deriving Repr, DecidableEq

/-- Lines 93-137, `main`: construct `MovieConsolidator` (which calls
`load_settings`, `load_hardware_config` and `validate_environment`), call
`print_hardware_info`, call `load_settings` again (line 101), dispatch on
`sys.argv`; `except Exception` catches delegate/KeyError failures (log,
print, cleanup, `sys.exit(1)`) but not `SystemExit`; the `finally` block
always runs `cleanup_work_directory` once more. -/
def mainRun (env : Env) : RunResult :=
  let initEvs := [Event.loadSettings, Event.loadHardwareConfig]
  let v := validateEnvironment env.fs
  match v.2.2 with
  | VOutcome.exit1 =>
      { trace := initEvs ++ v.2.1 ++ [Event.cleanup], fs := v.1, exitCode := 1 }
  | VOutcome.ok =>
    let h := printHardwareInfo env.hw
    match h.2 with
    | Except.error e =>
        { trace := initEvs ++ v.2.1 ++ h.1 ++
            [Event.logEvent ("Program execution failed: " ++ e),
             Event.printMsg ("Error: " ++ e),
             Event.cleanup, Event.cleanup],
          fs := v.1, exitCode := 1 }
    | Except.ok _ =>
      let pre := initEvs ++ v.2.1 ++ h.1 ++ [Event.loadSettings]
      match selectMode env.argv with
      | ExecutionMode.interactive =>
          match env.interactiveRaises with
          | none =>
              { trace := pre ++ [Event.callLaunchInterface, Event.cleanup],
                fs := v.1, exitCode := 0 }
          | some m =>
              { trace := pre ++
                  [Event.callLaunchInterface,
                   Event.logEvent ("Program execution failed: " ++ m),
                   Event.printMsg ("Error: " ++ m),
                   Event.cleanup, Event.cleanup],
                fs := v.1, exitCode := 1 }
      | ExecutionMode.batchDirectory i o =>
          let d := processDirectory v.1 env.batchRaises i o
          { trace := pre ++ d.2 ++ [Event.cleanup], fs := d.1, exitCode := 0 }
      | ExecutionMode.singleFile i o =>
          let s := processSingleFile v.1 env.singleRaises i o
          { trace := pre ++ s.2 ++ [Event.cleanup], fs := s.1, exitCode := 0 }
      | ExecutionMode.usageHelp =>
          { trace := pre ++ usageEvents ++ [Event.cleanup], fs := v.1, exitCode := 0 }

/-- Recognises the three delegate-call events. -/
def isDelegateCall : Event → Bool
  | Event.callProcessVideos _ _ => true
  | Event.callProcessVideo _ _ => true
  | Event.callLaunchInterface => true
  | _ => false

/-- Recognises an acceleration-tier print. -/
def isTierMsg : Event → Bool
  | Event.printTier _ => true
  | _ => false

/-- A complete on-disk environment plus a hardware mapping with both flag
keys, used as a base for concrete runs. -/
def fsBase : FS :=
  ⟨["data", "input", "output", "work",
    "data/temporary.py", "data/persistent.json", "data/hardware.txt"]⟩

def hwBase : HardwareConfig := [("OpenCL", false), ("Avx2", false)]

/-! ### Trace-shape lemmas -/

theorem createDirs_trace_log (fs : FS) (ds : List String) :
    ∀ e ∈ (createDirs fs ds).2, ∃ m, e = Event.logEvent m := by
  induction ds generalizing fs with
  | nil => intro e he; simp [createDirs] at he
  | cons d ds ih =>
    intro e he
    by_cases hd : fs.pathExists d = true
    · simp only [createDirs, hd, if_true] at he
      exact ih fs e he
    · simp only [createDirs, hd, if_false, Bool.false_eq_true] at he
      rcases List.mem_cons.mp he with h | h
      · exact ⟨_, h⟩
      · exact ih _ e h

theorem hwDump_trace_print (hw : HardwareConfig) :
    ∀ e ∈ hwDump hw, ∃ m, e = Event.printMsg m := by
  intro e he
  simp only [hwDump, List.mem_cons, List.mem_map] at he
  rcases he with h | ⟨kv, _, h⟩
  · exact ⟨_, h⟩
  · exact ⟨_, h.symm⟩

theorem printHardwareInfo_trace_print (hw : HardwareConfig) :
    ∀ e ∈ (printHardwareInfo hw).1,
      (∃ m, e = Event.printMsg m) ∨ ∃ m, e = Event.printTier m := by
  intro e he
  unfold printHardwareInfo at he
  cases hacc : accelTier hw with
  | ok m =>
    rw [hacc] at he
    rcases List.mem_append.mp he with h | h
    · exact Or.inl (hwDump_trace_print hw e h)
    · exact Or.inr ⟨m, List.mem_singleton.mp h⟩
  | error m =>
    rw [hacc] at he
    exact Or.inl (hwDump_trace_print hw e he)

theorem processDirectory_trace_shape (fs : FS) (br : Option String) (i o : String) :
    ∀ e ∈ (processDirectory fs br i o).2,
      (∃ m, e = Event.logEvent m) ∨ e = Event.cleanup ∨
        e = Event.callProcessVideos i o := by
  intro e he
  unfold processDirectory at he
  split at he
  · simp only [List.mem_cons, List.not_mem_nil, or_false] at he
    rcases he with h | h
    · exact Or.inl ⟨_, h⟩
    · exact Or.inr (Or.inl h)
  · split at he
    · simp only [List.mem_cons, List.not_mem_nil, or_false] at he
      rcases he with h | h
      · exact Or.inl ⟨_, h⟩
      · exact Or.inr (Or.inl h)
    · split at he <;>
        simp only [List.mem_cons, List.not_mem_nil, or_false] at he
      · rcases he with h | h
        · exact Or.inl ⟨_, h⟩
        · exact Or.inr (Or.inr h)
      · rcases he with h | h | h | h
        · exact Or.inl ⟨_, h⟩
        · exact Or.inr (Or.inr h)
        · exact Or.inl ⟨_, h⟩
        · exact Or.inr (Or.inl h)

theorem processSingleFile_trace_shape (fs : FS) (sr : Option String) (i o : String) :
    ∀ e ∈ (processSingleFile fs sr i o).2,
      (∃ m, e = Event.logEvent m) ∨ e = Event.cleanup ∨
        e = Event.callProcessVideo i o := by
  intro e he
  unfold processSingleFile at he
  split at he
  · simp only [List.mem_cons, List.not_mem_nil, or_false] at he
    rcases he with h | h
    · exact Or.inl ⟨_, h⟩
    · exact Or.inr (Or.inl h)
  · split at he
    · simp only [List.mem_cons, List.not_mem_nil, or_false] at he
      rcases he with h | h
      · exact Or.inl ⟨_, h⟩
      · exact Or.inr (Or.inl h)
    · split at he <;>
        simp only [List.mem_cons, List.not_mem_nil, or_false] at he
      · rcases he with h | h
        · exact Or.inl ⟨_, h⟩
        · exact Or.inr (Or.inr h)
      · rcases he with h | h | h | h
        · exact Or.inl ⟨_, h⟩
        · exact Or.inr (Or.inr h)
        · exact Or.inl ⟨_, h⟩
        · exact Or.inr (Or.inl h)

/-! ### Count lemmas derived from the trace shapes -/

theorem count_eq_zero_of_forall_ne {l : List Event} {a : Event}
    (h : ∀ e ∈ l, e ≠ a) : l.count a = 0 :=
  List.count_eq_zero.mpr (fun hmem => (h a hmem) rfl)

theorem createDirs_count_cleanup (fs : FS) (ds : List String) :
    (createDirs fs ds).2.count Event.cleanup = 0 :=
  count_eq_zero_of_forall_ne (fun e he => by
    obtain ⟨m, hm⟩ := createDirs_trace_log fs ds e he
    simp [hm])

theorem createDirs_count_loadSettings (fs : FS) (ds : List String) :
    (createDirs fs ds).2.count Event.loadSettings = 0 :=
  count_eq_zero_of_forall_ne (fun e he => by
    obtain ⟨m, hm⟩ := createDirs_trace_log fs ds e he
    simp [hm])

theorem printHardwareInfo_count_cleanup (hw : HardwareConfig) :
    (printHardwareInfo hw).1.count Event.cleanup = 0 :=
  count_eq_zero_of_forall_ne (fun e he => by
    rcases printHardwareInfo_trace_print hw e he with ⟨m, hm⟩ | ⟨m, hm⟩ <;> simp [hm])

theorem printHardwareInfo_count_loadSettings (hw : HardwareConfig) :
    (printHardwareInfo hw).1.count Event.loadSettings = 0 :=
  count_eq_zero_of_forall_ne (fun e he => by
    rcases printHardwareInfo_trace_print hw e he with ⟨m, hm⟩ | ⟨m, hm⟩ <;> simp [hm])

theorem processDirectory_count_cleanup_le (fs : FS) (br : Option String) (i o : String) :
    (processDirectory fs br i o).2.count Event.cleanup ≤ 1 := by
  unfold processDirectory
  split
  · simp [List.count_cons]
  · split
    · simp [List.count_cons]
    · split <;> simp [List.count_cons]

theorem processDirectory_count_loadSettings (fs : FS) (br : Option String) (i o : String) :
    (processDirectory fs br i o).2.count Event.loadSettings = 0 :=
  count_eq_zero_of_forall_ne (fun e he => by
    rcases processDirectory_trace_shape fs br i o e he with ⟨m, hm⟩ | hm | hm <;> simp [hm])

theorem processSingleFile_count_cleanup_le (fs : FS) (sr : Option String) (i o : String) :
    (processSingleFile fs sr i o).2.count Event.cleanup ≤ 1 := by
  unfold processSingleFile
  split
  · simp [List.count_cons]
  · split
    · simp [List.count_cons]
    · split <;> simp [List.count_cons]

theorem processSingleFile_count_loadSettings (fs : FS) (sr : Option String) (i o : String) :
    (processSingleFile fs sr i o).2.count Event.loadSettings = 0 :=
  count_eq_zero_of_forall_ne (fun e he => by
    rcases processSingleFile_trace_shape fs sr i o e he with ⟨m, hm⟩ | hm | hm <;> simp [hm])

theorem usageEvents_count_cleanup : usageEvents.count Event.cleanup = 0 := by
  simp [usageEvents]

theorem usageEvents_count_loadSettings : usageEvents.count Event.loadSettings = 0 := by
  simp [usageEvents]

theorem validateEnvironment_trace_log (fs : FS) :
    ∀ e ∈ (validateEnvironment fs).2.1, ∃ m, e = Event.logEvent m := by
  intro e he
  rcases hfm : firstMissingFile (createDirs fs requiredDirs).1 with _ | f <;>
    simp only [validateEnvironment, hfm] at he
  · exact createDirs_trace_log fs requiredDirs e he
  · rcases List.mem_append.mp he with h | h
    · exact createDirs_trace_log fs requiredDirs e h
    · rcases List.mem_cons.mp h with h1 | h1
      · exact ⟨_, h1⟩
      · exact ⟨_, List.mem_singleton.mp h1⟩

theorem validateEnvironment_count_cleanup (fs : FS) :
    (validateEnvironment fs).2.1.count Event.cleanup = 0 :=
  count_eq_zero_of_forall_ne (fun e he => by
    obtain ⟨m, hm⟩ := validateEnvironment_trace_log fs e he
    simp [hm])

theorem validateEnvironment_count_loadSettings (fs : FS) :
    (validateEnvironment fs).2.1.count Event.loadSettings = 0 :=
  count_eq_zero_of_forall_ne (fun e he => by
    obtain ⟨m, hm⟩ := validateEnvironment_trace_log fs e he
    simp [hm])

/-! ### Claim theorems -/

/-- C1: for every run of the top-level entry point, regardless of outcome —
successful dispatch, caught processing failure, usage help,
environment-validation failure (`sys.exit(1)` raising `SystemExit`), or an
uncaught fatal error caught by the top-level handler — the external
`cleanup_work_directory` operation appears in the trace at least once
before the process terminates (the `finally` block guarantees it). -/
theorem c1_cleanup_always_invoked (env : Env) :
    Event.cleanup ∈ (mainRun env).trace := by
  simp only [mainRun]
  split
  · simp
  · split
    · simp
    · split
      · split <;> simp
      · simp
      · simp
      · simp

/-- A batch run on a complete environment whose Batch Processor delegate
raises. -/
def envBatchBoom : Env :=
  { fs := ⟨"in" :: fsBase.paths⟩
    hw := hwBase
    argv := ["launcher.py", "in", "out"]
    batchRaises := some "boom"
    singleRaises := none
    interactiveRaises := none }

/-- C2 counterexample: on a run whose Batch Processor delegate raises, the
trace contains `cleanup_work_directory` twice — once from the handler
inside `process_directory` (line 74) and once from the `finally` block
(line 137) — refuting "invoked exactly once, never more than once". -/
theorem c2_counterexample :
    (mainRun envBatchBoom).trace.count Event.cleanup = 2 := by
  rfl

/-- C2 (amended): on every run and every terminal outcome,
`cleanup_work_directory` is invoked at least once and at most twice: the
`finally` block always contributes one invocation, and a caught delegate
or top-level failure contributes one more. -/
theorem c2_amended_cleanup_bounds (env : Env) :
    1 ≤ (mainRun env).trace.count Event.cleanup ∧
      (mainRun env).trace.count Event.cleanup ≤ 2 := by
  simp only [mainRun]
  split
  · simp [List.count_append, List.count_cons, validateEnvironment_count_cleanup]
  · split
    · simp [List.count_append, List.count_cons, validateEnvironment_count_cleanup,
        printHardwareInfo_count_cleanup]
    · split
      · split <;>
          simp [List.count_append, List.count_cons, validateEnvironment_count_cleanup,
            printHardwareInfo_count_cleanup]
      · next i o heq =>
        have hd := processDirectory_count_cleanup_le
          (validateEnvironment env.fs).1 env.batchRaises i o
        simp [List.count_append, List.count_cons, validateEnvironment_count_cleanup,
          printHardwareInfo_count_cleanup]
        omega
      · next i o heq =>
        have hs := processSingleFile_count_cleanup_le
          (validateEnvironment env.fs).1 env.singleRaises i o
        simp [List.count_append, List.count_cons, validateEnvironment_count_cleanup,
          printHardwareInfo_count_cleanup]
        omega
      · simp [List.count_append, List.count_cons, validateEnvironment_count_cleanup,
          printHardwareInfo_count_cleanup, usageEvents_count_cleanup]

/-- C3 counterexample: the invocation `["--file", "a.mp4"]` (that is,
`sys.argv = ["launcher.py", "--file", "a.mp4"]`) does NOT select UsageHelp:
the two-argument branch tests only `len(sys.argv) == 3`, so it selects
BatchDirectory with input directory `"--file"`. -/
theorem c3_counterexample :
    selectMode ["launcher.py", "--file", "a.mp4"] =
        ExecutionMode.batchDirectory "--file" "a.mp4" ∧
      ¬ selectMode ["launcher.py", "--file", "a.mp4"] = ExecutionMode.usageHelp := by
  refine ⟨rfl, fun h => ?_⟩
  rw [show selectMode ["launcher.py", "--file", "a.mp4"] =
      ExecutionMode.batchDirectory "--file" "a.mp4" from rfl] at h
  exact ExecutionMode.noConfusion h

/-- C3 (amended): any invocation with exactly two arguments whose first is
not the GUI flag token selects BatchDirectory on those two arguments —
including the wrong-arity `["--file", "a.mp4"]`, which becomes
BatchDirectory("--file", "a.mp4") rather than UsageHelp. -/
theorem c3_amended_two_args_batch (p a b : String) (h : a ≠ "--gui") :
    selectMode [p, a, b] = ExecutionMode.batchDirectory a b := by
  simp [selectMode, h]

/-- Witness for the amended C3 at a concrete invocation. -/
theorem c3_amended_two_args_batch_witness :
    selectMode ["launcher.py", "--file", "b.mp4"] =
      ExecutionMode.batchDirectory "--file" "b.mp4" :=
  c3_amended_two_args_batch "launcher.py" "--file" "b.mp4" (by decide)

/-- C4 counterexample: a HardwareConfig lacking the GPU-acceleration flag
makes `print_hardware_info` fail (`KeyError` on the `"OpenCL"` subscript,
line 53): the absent flag is not treated as false and no standard-CPU
fallback tier is reported. -/
theorem c4_counterexample :
    (printHardwareInfo [("Avx2", false)]).2 = Except.error "OpenCL" ∧
      (printHardwareInfo [("Avx2", false)]).1.countP isTierMsg = 0 :=
  ⟨rfl, rfl⟩

theorem accelTier_of_lookups (hw : HardwareConfig) (g a : Bool)
    (hg : hw.lookup "OpenCL" = some g) (ha : hw.lookup "Avx2" = some a) :
    accelTier hw = Except.ok (if g then "Using OpenCL for GPU acceleration"
      else if a then "Using AVX2 for CPU acceleration"
      else "Using standard CPU processing") := by
  simp only [accelTier, hg, ha]
  cases g <;> cases a <;> simp

/-- C4 (amended): `print_hardware_info` does not treat an absent flag as
false — a mapping lacking the GPU flag fails with a `KeyError` — but for
every mapping containing both flag keys it never fails, and the emitted
tier is the standard-CPU fallback exactly when both flags are false. -/
theorem c4_amended_total_when_flags_present (hw : HardwareConfig) (g a : Bool)
    (hg : hw.lookup "OpenCL" = some g) (ha : hw.lookup "Avx2" = some a) :
    (printHardwareInfo hw).2 = Except.ok () ∧
      Event.printTier (if g then "Using OpenCL for GPU acceleration"
        else if a then "Using AVX2 for CPU acceleration"
        else "Using standard CPU processing") ∈ (printHardwareInfo hw).1 := by
  have hacc := accelTier_of_lookups hw g a hg ha
  constructor
  · simp [printHardwareInfo, hacc]
  · simp [printHardwareInfo, hacc]

/-- Witness for the amended C4 on a mapping with both flags false. -/
theorem c4_amended_total_when_flags_present_witness :
    (printHardwareInfo hwBase).2 = Except.ok () ∧
      Event.printTier (if false then "Using OpenCL for GPU acceleration"
        else if false then "Using AVX2 for CPU acceleration"
        else "Using standard CPU processing") ∈ (printHardwareInfo hwBase).1 :=
  c4_amended_total_when_flags_present hwBase false false rfl rfl

/-- An interactive-mode run (no CLI arguments) on a complete environment
whose Interactive Interface delegate raises. -/
def envInteractiveBoom : Env :=
  { fs := fsBase
    hw := hwBase
    argv := ["launcher.py"]
    batchRaises := none
    singleRaises := none
    interactiveRaises := some "boom" }

/-- C5 counterexample: when the Interactive Interface delegate raises, the
error reaches the top-level handler, which calls `sys.exit(1)`: the
process exit status is 1, not the 0 the claim requires. -/
theorem c5_counterexample : (mainRun envInteractiveBoom).exitCode = 1 := rfl

/-- C5 (amended): an error raised by the Interactive Interface delegate is
caught only by the top-level handler: it is logged and cleanup is
triggered, but — unlike a Batch or Single-File Processor failure, which is
caught inside the dispatch method and leaves the exit status 0 — the
handler calls `sys.exit(1)`, so the process exits with non-zero status. -/
theorem c5_amended_interactive_failure_exits_nonzero (env : Env) (m : String)
    (hv : (validateEnvironment env.fs).2.2 = VOutcome.ok)
    (hh : (printHardwareInfo env.hw).2 = Except.ok ())
    (hm : selectMode env.argv = ExecutionMode.interactive)
    (hi : env.interactiveRaises = some m) :
    (mainRun env).exitCode = 1 ∧
      Event.logEvent ("Program execution failed: " ++ m) ∈ (mainRun env).trace ∧
      Event.cleanup ∈ (mainRun env).trace := by
  simp only [mainRun, hv, hh, hm, hi]
  simp

/-- Witness for the amended C5 on a concrete failing interactive run. -/
theorem c5_amended_interactive_failure_exits_nonzero_witness :
    (mainRun envInteractiveBoom).exitCode = 1 ∧
      Event.logEvent ("Program execution failed: " ++ "boom")
        ∈ (mainRun envInteractiveBoom).trace ∧
      Event.cleanup ∈ (mainRun envInteractiveBoom).trace :=
  c5_amended_interactive_failure_exits_nonzero envInteractiveBoom "boom" rfl rfl rfl rfl

theorem countP_eq_zero_of_forall {l : List Event} {p : Event → Bool}
    (h : ∀ e ∈ l, p e = false) : l.countP p = 0 :=
  List.countP_eq_zero.mpr (fun e he => by simp [h e he])

theorem createDirs_countP_delegate (fs : FS) (ds : List String) :
    (createDirs fs ds).2.countP isDelegateCall = 0 :=
  countP_eq_zero_of_forall (fun e he => by
    obtain ⟨m, hm⟩ := createDirs_trace_log fs ds e he
    simp [hm, isDelegateCall])

theorem createDirs_pathExists (fs : FS) (ds : List String) (p : String) :
    (createDirs fs ds).1.pathExists p = true → fs.pathExists p = true ∨ p ∈ ds := by
  induction ds generalizing fs with
  | nil => intro h; exact Or.inl (by simpa [createDirs] using h)
  | cons d ds ih =>
    intro h
    by_cases hd : fs.pathExists d = true
    · simp only [createDirs, hd, if_true] at h
      rcases ih fs h with h1 | h1
      · exact Or.inl h1
      · exact Or.inr (List.mem_cons_of_mem _ h1)
    · simp only [createDirs, hd, if_false, Bool.false_eq_true] at h
      rcases ih (fs.mkdir d) h with h1 | h1
      · simp only [FS.pathExists, FS.mkdir, List.mem_cons, decide_eq_true_eq] at h1
        rcases h1 with h2 | h2
        · exact Or.inr (h2 ▸ List.mem_cons_self d ds)
        · exact Or.inl (by simp [FS.pathExists, h2])
      · exact Or.inr (List.mem_cons_of_mem _ h1)

theorem requiredFiles_not_dirs : ∀ f ∈ requiredFiles, f ∉ requiredDirs := by
  decide

/-- C6: on every run in which some required configuration file is absent,
`validate_environment` logs an error naming the first missing required
file and the process terminates with exit status 1; no processing delegate
is ever invoked and the second `load_settings` call preceding argument
parsing is never reached. -/
theorem c6_missing_file_fatal (env : Env) (f : String)
    (hf : f ∈ requiredFiles) (hmiss : env.fs.pathExists f = false) :
    (firstMissing env.fs).isSome = true ∧
      (mainRun env).exitCode = 1 ∧
      Event.logEvent ("Error: Required file missing: " ++ (firstMissing env.fs).getD "")
        ∈ (mainRun env).trace ∧
      (mainRun env).trace.countP isDelegateCall = 0 ∧
      (mainRun env).trace.count Event.loadSettings = 1 := by
  have hmiss2 : (createDirs env.fs requiredDirs).1.pathExists f = false := by
    by_contra hc
    have ht : (createDirs env.fs requiredDirs).1.pathExists f = true := by
      cases hx : (createDirs env.fs requiredDirs).1.pathExists f
      · exact absurd hx hc
      · rfl
    rcases createDirs_pathExists env.fs requiredDirs f ht with h1 | h1
    · rw [hmiss] at h1; cases h1
    · exact requiredFiles_not_dirs f hf h1
  have hsome : (firstMissingFile (createDirs env.fs requiredDirs).1).isSome = true := by
    apply List.find?_isSome.mpr
    exact ⟨f, hf, by simp [hmiss2]⟩
  obtain ⟨g, hg⟩ := Option.isSome_iff_exists.mp hsome
  have hfm : firstMissing env.fs = some g := hg
  refine ⟨by simp [hfm], ?_⟩
  simp only [mainRun, validateEnvironment, hg, hfm]
  simp [Option.getD, List.countP_append, List.countP_cons, createDirs_countP_delegate,
    isDelegateCall, List.count_append, List.count_cons, createDirs_count_loadSettings]

/-- A run starting from an empty filesystem: all required files missing. -/
def envEmptyFS : Env :=
  { fs := ⟨[]⟩
    hw := hwBase
    argv := ["launcher.py"]
    batchRaises := none
    singleRaises := none
    interactiveRaises := none }

/-- Witness for C6: a run starting from an empty filesystem. -/
theorem c6_missing_file_fatal_witness :
    (firstMissing envEmptyFS.fs).isSome = true ∧
      (mainRun envEmptyFS).exitCode = 1 ∧
      Event.logEvent ("Error: Required file missing: " ++ (firstMissing envEmptyFS.fs).getD "")
        ∈ (mainRun envEmptyFS).trace ∧
      (mainRun envEmptyFS).trace.countP isDelegateCall = 0 ∧
      (mainRun envEmptyFS).trace.count Event.loadSettings = 1 :=
  c6_missing_file_fatal envEmptyFS "data/temporary.py" (by decide) rfl

/-- C7 counterexample: a SingleFile run whose input file exists but whose
output path is a bare filename — the very shape of the documented
invocation `--file a.mp4 b.mp4` — never reaches the Single-File Processor:
`os.path.dirname("b.mp4")` is `""`, `os.makedirs("")` raises, and the
handler swallows the error after cleanup, leaving the filesystem
untouched. -/
theorem c7_counterexample :
    processSingleFile ⟨["a.mp4"]⟩ none "a.mp4" "b.mp4" =
      (⟨["a.mp4"]⟩,
       [Event.logEvent "Single file processing failed: No such file or directory",
        Event.cleanup]) := rfl

/-- C7 (amended): for every SingleFile run whose input file exists and
whose output path has a non-empty directory component, the output parent
directory exists afterwards (created if missing) and the Single-File
Processor is called with the original, unmodified input/output paths; an
output path with no directory component instead fails in `os.makedirs("")`
before the processor is reached. -/
theorem c7_amended_single_file_calls_processor (fs : FS) (sr : Option String)
    (i o : String) (hi : fs.pathExists i = true) (ho : dirname o ≠ "") :
    Event.callProcessVideo i o ∈ (processSingleFile fs sr i o).2 ∧
      (processSingleFile fs sr i o).1.pathExists (dirname o) = true := by
  have hne : (!(fs.pathExists i)) = false := by simp [hi]
  by_cases hex : fs.pathExists (dirname o) = true
  · simp only [processSingleFile, hne, Bool.false_eq_true, if_false, hex, if_true]
    cases sr <;> simp [hex]
  · simp only [processSingleFile, hne, Bool.false_eq_true, if_false, hex,
      FS.makedirs, if_neg ho]
    cases sr <;> simp [FS.pathExists, FS.mkdir]

/-- Witness for the amended C7 on a concrete single-file run. -/
theorem c7_amended_single_file_calls_processor_witness :
    Event.callProcessVideo "a.mp4" "out/b.mp4"
        ∈ (processSingleFile ⟨["a.mp4"]⟩ none "a.mp4" "out/b.mp4").2 ∧
      (processSingleFile ⟨["a.mp4"]⟩ none "a.mp4" "out/b.mp4").1.pathExists
        (dirname "out/b.mp4") = true :=
  c7_amended_single_file_calls_processor ⟨["a.mp4"]⟩ none "a.mp4" "out/b.mp4" rfl (by decide)

/-- C8 counterexample: on a mapping holding only the vector flag (set to
true), no acceleration-tier message is emitted at all — the `"OpenCL"`
subscript raises `KeyError` first — refuting "exactly one tier message for
every HardwareConfig, the vector message whenever the vector flag is
true". -/
theorem c8_counterexample :
    (printHardwareInfo [("Avx2", true)]).1.countP isTierMsg = 0 ∧
      (printHardwareInfo [("Avx2", true)]).2 = Except.error "OpenCL" :=
  ⟨rfl, rfl⟩

theorem hwDump_countP_tier (hw : HardwareConfig) :
    (hwDump hw).countP isTierMsg = 0 :=
  countP_eq_zero_of_forall (fun e he => by
    obtain ⟨m, hm⟩ := hwDump_trace_print hw e he
    simp [hm, isTierMsg])

/-- C8 (amended): for every HardwareConfig containing both flag keys,
exactly one acceleration-tier message is emitted, chosen by the priority
GPU-acceleration > vectorized-CPU > standard-CPU; the choice depends only
on the two flag values (hence not on the mapping's insertion order).  A
mapping lacking a flag key instead fails before emitting any tier
message. -/
theorem c8_amended_one_tier_by_priority (hw : HardwareConfig) (g a : Bool)
    (hg : hw.lookup "OpenCL" = some g) (ha : hw.lookup "Avx2" = some a) :
    (printHardwareInfo hw).1.countP isTierMsg = 1 ∧
      Event.printTier (if g then "Using OpenCL for GPU acceleration"
        else if a then "Using AVX2 for CPU acceleration"
        else "Using standard CPU processing") ∈ (printHardwareInfo hw).1 := by
  have hacc := accelTier_of_lookups hw g a hg ha
  constructor
  · simp [printHardwareInfo, hacc, List.countP_append, hwDump_countP_tier, isTierMsg]
  · simp [printHardwareInfo, hacc]

/-- Witness for the amended C8: GPU flag wins over the vector flag. -/
theorem c8_amended_one_tier_by_priority_witness :
    (printHardwareInfo [("OpenCL", true), ("Avx2", false)]).1.countP isTierMsg = 1 ∧
      Event.printTier (if true then "Using OpenCL for GPU acceleration"
        else if false then "Using AVX2 for CPU acceleration"
        else "Using standard CPU processing")
        ∈ (printHardwareInfo [("OpenCL", true), ("Avx2", false)]).1 :=
  c8_amended_one_tier_by_priority [("OpenCL", true), ("Avx2", false)] true false rfl rfl

/-- A usage-help run on a complete environment. -/
def envUsage : Env :=
  { fs := fsBase
    hw := hwBase
    argv := ["launcher.py", "zzz"]
    batchRaises := none
    singleRaises := none
    interactiveRaises := none }

/-- C9 counterexample: even on a plain usage-help run, `load_settings` is
invoked twice — once in the `MovieConsolidator` constructor (line 17) and
once more in `main` (line 101) — refuting "invoked exactly once, at
startup". -/
theorem c9_counterexample :
    (mainRun envUsage).trace.count Event.loadSettings = 2 := rfl

/-- C9 (amended): `load_settings` is invoked exactly twice on every run
that passes environment validation and hardware reporting — once inside
the orchestrator constructor and once again in `main` just before
dispatch — and is never invoked again afterwards, whatever the dispatch
branch does. -/
theorem c9_amended_load_settings_twice (env : Env)
    (hv : (validateEnvironment env.fs).2.2 = VOutcome.ok)
    (hh : (printHardwareInfo env.hw).2 = Except.ok ()) :
    (mainRun env).trace.count Event.loadSettings = 2 := by
  simp only [mainRun, hv, hh]
  split
  · split <;>
      simp [List.count_append, List.count_cons, validateEnvironment_count_loadSettings,
        printHardwareInfo_count_loadSettings]
  · simp [List.count_append, List.count_cons, validateEnvironment_count_loadSettings,
      printHardwareInfo_count_loadSettings, processDirectory_count_loadSettings]
  · simp [List.count_append, List.count_cons, validateEnvironment_count_loadSettings,
      printHardwareInfo_count_loadSettings, processSingleFile_count_loadSettings]
  · simp [List.count_append, List.count_cons, validateEnvironment_count_loadSettings,
      printHardwareInfo_count_loadSettings, usageEvents_count_loadSettings]

/-- Witness for the amended C9 on a concrete interactive run. -/
theorem c9_amended_load_settings_twice_witness :
    (mainRun envInteractiveBoom).trace.count Event.loadSettings = 2 :=
  c9_amended_load_settings_twice envInteractiveBoom rfl rfl

/-- C10: a BatchDirectory run whose input directory does not exist leaves
the filesystem exactly as it was — in particular the output directory is
not created, because the input-existence check precedes output-directory
creation — and produces only the InputNotFound log followed by cleanup:
the Batch Processor is never called. -/
theorem c10_missing_input_no_effects (fs : FS) (br : Option String) (i o : String)
    (h : fs.pathExists i = false) :
    processDirectory fs br i o =
      (fs, [Event.logEvent ("Directory processing failed: Input directory not found: " ++ i),
            Event.cleanup]) := by
  have hne : (!(fs.pathExists i)) = true := by simp [h]
  simp only [processDirectory, hne, if_true]

/-- Witness for C10 on a concrete run with a missing input directory. -/
theorem c10_missing_input_no_effects_witness :
    processDirectory ⟨[]⟩ none "in" "out" =
      (⟨[]⟩,
       [Event.logEvent ("Directory processing failed: Input directory not found: " ++ "in"),
        Event.cleanup]) :=
  c10_missing_input_no_effects ⟨[]⟩ none "in" "out" rfl

end Launcher
